import Mathlib

/-!
Verification of the battery-RUL data-generation engine.

Shallow embedding of the battery physics and state-estimation core:
`src/battery_degradation.py` (degradation model), `src/telemetry_generator.py`
(telemetry synthesizer), `src/digital_twin_ecm.py` (ECM digital twin, EKF,
hybrid predictor) and `src/thailand_environment.py` (outage generation).

Conventions:
  - Python floats are modelled as real numbers; `np.clip` is `np_clip`.
  - Randomness is made explicit: every random draw the Python code makes is a
    parameter of the embedded function (a uniform sample in `[0,1)`, or the
    drawn integers for outage scheduling).
  - A Python float division that can raise `ZeroDivisionError` is embedded as
    an `Option`-valued function returning `none` exactly on the raising input.
    The one numpy division that does not raise but yields non-real values —
    the Kalman-gain division at a singular innovation covariance, which
    poisons the state with `inf`/`nan` (`np.clip(nan)` is `nan`) — cannot be
    represented by a real-valued state either and is likewise excluded from
    `some`; the functions concerned document which `none` is a raise and
    which is the non-real continuation.
  - Methods that mutate `self` become functions `State -> State`.
-/

noncomputable section

/-- The `np.clip(x, lo, hi)` function: clamp `x` into `[lo, hi]`. -/
def np_clip (x lo hi : ℝ) : ℝ := min (max x lo) hi

/-- One entry of `BatteryDegradationModel.PROFILES` in `battery_degradation.py`. -/
structure DegradationProfile where
  soh_decline_pct_per_year : ℝ
  resistance_increase_pct_per_year : ℝ
  cycle_stress_factor : ℝ
  temp_acceleration_factor : ℝ
  sudden_failure_probability : ℝ

/-- `PROFILES['healthy']`. -/
def healthy_profile : DegradationProfile := ⟨2.0, 5.0, 1.0, 1.0, 0.0001⟩

/-- `PROFILES['accelerated']`. -/
def accelerated_profile : DegradationProfile := ⟨8.0, 15.0, 1.5, 1.3, 0.001⟩

/-- `PROFILES['failing']`. -/
def failing_profile : DegradationProfile := ⟨25.0, 40.0, 2.0, 1.5, 0.01⟩

/-- Failure modes drawn in `check_sudden_failure`. -/
inductive FailureMode
  | thermal_runaway
  | internal_short
  | dry_out
  | grid_corrosion
  | sulfation
deriving DecidableEq

/-- Mutable state of `BatteryDegradationModel` (`battery_degradation.py`).
Time is measured in days (real numbers); `failure_date` stores the simulation
time passed to a firing `check_sudden_failure` call. -/
structure BatteryDegradationModel where
  battery_id : String
  initial_capacity_ah : ℝ
  initial_resistance_mohm : ℝ
  profile : DegradationProfile
  current_capacity_ah : ℝ
  current_resistance_mohm : ℝ
  current_soh_pct : ℝ
  cumulative_ah_throughput : ℝ
  cycle_count : ℝ
  failed : Bool
  failure_date : Option ℝ
  failure_mode : Option FailureMode
  calendar_age_days : ℝ
  temperature_stress_accumulated : ℝ
  cycle_stress_accumulated : ℝ

namespace BatteryDegradationModel

/-- `BatteryDegradationModel.__init__` with an explicitly supplied profile:
all state variables start from the initial values, SOH at 100, not failed. -/
def init (battery_id : String) (initial_capacity_ah initial_resistance_mohm : ℝ)
    (profile : DegradationProfile) : BatteryDegradationModel where
  battery_id := battery_id
  initial_capacity_ah := initial_capacity_ah
  initial_resistance_mohm := initial_resistance_mohm
  profile := profile
  current_capacity_ah := initial_capacity_ah
  current_resistance_mohm := initial_resistance_mohm
  current_soh_pct := 100.0
  cumulative_ah_throughput := 0.0
  cycle_count := 0
  failed := false
  failure_date := none
  failure_mode := none
  calendar_age_days := 0
  temperature_stress_accumulated := 0.0
  cycle_stress_accumulated := 0.0

end BatteryDegradationModel

/-- `BatteryDegradationModel.get_temperature_acceleration_factor`: Arrhenius
acceleration `exp((E_a/k_B) * (1/T_ref - 1/T))` with `T_ref = 25 + 273.15` K,
`E_a = 0.7` eV, `k_B = 8.617e-5` eV/K.  The method reads only class constants,
so it is embedded as a function of the temperature alone.  (For an input of
exactly `-273.15` °C Python would raise `ZeroDivisionError`; the embedding
uses the real-division convention there, and no theorem below depends on that
input.) -/
def get_temperature_acceleration_factor (temperature_c : ℝ) : ℝ :=
  Real.exp ((0.7 / 8.617e-5) * (1 / 298.15 - 1 / (temperature_c + 273.15)))

namespace BatteryDegradationModel

/-- `BatteryDegradationModel.update_calendar_aging(delta_time_hours,
avg_temperature_c, avg_float_voltage_v)`: time-based SOH decline with
Arrhenius temperature acceleration and a float-voltage stress multiplier;
capacity is recomputed from the new SOH, resistance grows multiplicatively. -/
def update_calendar_aging (m : BatteryDegradationModel)
    (delta_time_hours avg_temperature_c avg_float_voltage_v : ℝ) :
    BatteryDegradationModel :=
  let delta_days := delta_time_hours / 24.0
  let temp_accel := get_temperature_acceleration_factor avg_temperature_c *
    m.profile.temp_acceleration_factor
  let voltage_stress :=
    if avg_float_voltage_v > 13.70 then 1.0 + (avg_float_voltage_v - 13.70) * 0.5
    else if avg_float_voltage_v < 13.50 then 1.0 + (13.50 - avg_float_voltage_v) * 0.3
    else 1.0
  let base_aging_rate := m.profile.soh_decline_pct_per_year / 365.0
  let actual_aging_rate := base_aging_rate * temp_accel * voltage_stress
  let soh_loss := actual_aging_rate * delta_days
  let new_soh := max 0 (m.current_soh_pct - soh_loss)
  let base_resistance_rate := m.profile.resistance_increase_pct_per_year / 365.0
  let actual_resistance_rate := base_resistance_rate * temp_accel * voltage_stress
  let resistance_increase := actual_resistance_rate * delta_days
  { m with
    calendar_age_days := m.calendar_age_days + delta_days
    current_soh_pct := new_soh
    current_capacity_ah := m.initial_capacity_ah * (new_soh / 100.0)
    current_resistance_mohm :=
      m.current_resistance_mohm * (1 + resistance_increase / 100.0)
    temperature_stress_accumulated :=
      m.temperature_stress_accumulated + (avg_temperature_c - 25.0) * delta_days }

/-- `BatteryDegradationModel.update_cycle_aging(ah_throughput,
depth_of_discharge_pct, temperature_c)`: converts throughput to equivalent
full cycles, applies DoD stress (exponent 2), temperature acceleration and the
profile cycle-stress factor; capacity is recomputed from the new SOH.
(Python would raise `ZeroDivisionError` when `initial_capacity_ah = 0`; the
embedding uses real division there, and the capacity/SOH link proved below
does not depend on the quotient's value.) -/
def update_cycle_aging (m : BatteryDegradationModel)
    (ah_throughput depth_of_discharge_pct temperature_c : ℝ) :
    BatteryDegradationModel :=
  let cycles := ah_throughput / m.initial_capacity_ah
  let dod_stress := (depth_of_discharge_pct / 100.0) ^ 2
  let temp_accel := get_temperature_acceleration_factor temperature_c
  let capacity_loss_pct :=
    0.001 * cycles * dod_stress * temp_accel * m.profile.cycle_stress_factor
  let new_soh := max 0 (m.current_soh_pct - capacity_loss_pct)
  { m with
    cycle_count := m.cycle_count + cycles
    cumulative_ah_throughput := m.cumulative_ah_throughput + ah_throughput
    current_soh_pct := new_soh
    current_capacity_ah := m.initial_capacity_ah * (new_soh / 100.0)
    current_resistance_mohm :=
      m.current_resistance_mohm * (1 + capacity_loss_pct * 2.0 / 100.0)
    cycle_stress_accumulated := m.cycle_stress_accumulated + cycles * dod_stress }

/-- The categorical failure-mode draw in `check_sudden_failure`
(`np.random.choice` with weights `[0.05, 0.10, 0.30, 0.35, 0.20]`), realised
by inverse-CDF sampling of a uniform draw `u ∈ [0,1)`. -/
def sample_failure_mode (u : ℝ) : FailureMode :=
  if u < 0.05 then .thermal_runaway
  else if u < 0.15 then .internal_short
  else if u < 0.45 then .dry_out
  else if u < 0.80 then .grid_corrosion
  else .sulfation

/-- The per-call failure probability computed inside
`BatteryDegradationModel.check_sudden_failure`: the profile base probability
multiplied sequentially by 2/3/5 as SOH drops below 80/60/40. -/
def failure_probability (m : BatteryDegradationModel) : ℝ :=
  let p0 := m.profile.sudden_failure_probability
  let p1 := if m.current_soh_pct < 80 then p0 * 2.0 else p0
  let p2 := if m.current_soh_pct < 60 then p1 * 3.0 else p1
  if m.current_soh_pct < 40 then p2 * 5.0 else p2

/-- `BatteryDegradationModel.check_sudden_failure(current_time)`: one
Bernoulli trial against `failure_probability`; on success the battery is
marked failed, SOH is set to 0 and a failure mode is drawn.  `u` is the
uniform draw compared against the failure probability and `u_mode` the draw
for the failure mode.  Returns the new state and the method's boolean
result; idempotent once failed. -/
def check_sudden_failure (m : BatteryDegradationModel) (current_time u u_mode : ℝ) :
    BatteryDegradationModel × Bool :=
  if m.failed then (m, true)
  else
    if u < m.failure_probability then
      ({ m with
          failed := true
          failure_date := some current_time
          current_soh_pct := 0.0
          failure_mode := some (sample_failure_mode u_mode) }, true)
    else (m, false)

/-- `BatteryDegradationModel.estimate_rul_days(eol_soh_threshold)`: 0 when
failed or at/under the threshold; otherwise linear extrapolation of the
observed average degradation rate (or the profile base rate when the calendar
age is 0), with the sentinel 9999.0 when the rate is non-positive. -/
def estimate_rul_days (m : BatteryDegradationModel) (eol_soh_threshold : ℝ) : ℝ :=
  if m.failed then 0.0
  else if m.current_soh_pct ≤ eol_soh_threshold then 0.0
  else
    let degradation_rate :=
      if m.calendar_age_days > 0 then
        (100.0 - m.current_soh_pct) / m.calendar_age_days
      else m.profile.soh_decline_pct_per_year / 365.0
    if degradation_rate ≤ 0 then 9999.0
    else max 0.0 ((m.current_soh_pct - eol_soh_threshold) / degradation_rate)

end BatteryDegradationModel

/-- The capacity/SOH invariant of the spec's data model:
`current_capacity_ah = initial_capacity_ah × (current_soh_pct / 100)`. -/
def capacity_soh_invariant (m : BatteryDegradationModel) : Prop :=
  m.current_capacity_ah = m.initial_capacity_ah * (m.current_soh_pct / 100.0)

/-! ### Telemetry synthesizer (`telemetry_generator.py`) -/

/-- Operating modes of a string (`TelemetryGenerator.MODES`). -/
inductive Mode
  | float
  | boost
  | discharge
  | idle
  | equalize
deriving DecidableEq

/-- Python `min` over a nonempty collection of reals (used on
`self.current_soc.values()`); returns 0 on the empty list, on which Python
would raise. -/
def list_min : List ℝ → ℝ
  | [] => 0
  | [x] => x
  | x :: y :: xs => min x (list_min (y :: xs))

/-- Arithmetic mean of a list of reals (the claim's "average state-of-charge";
this helper exists only for comparison with the spec wording). -/
def list_avg (xs : List ℝ) : ℝ := xs.sum / xs.length

namespace TelemetryGenerator

/-- `TelemetryGenerator.determine_mode(timestamp, grid_available,
scheduled_equalize)`.  The `timestamp` argument is unused by the source and
omitted.  The per-string state it reads is the previous mode
(`self.current_mode`) and the battery SOC table (`self.current_soc.values()`),
of which the source takes the MINIMUM. -/
def determine_mode (grid_available scheduled_equalize : Bool) (current_mode : Mode)
    (socs : List ℝ) : Mode :=
  if ¬ grid_available then .discharge
  else if scheduled_equalize then .equalize
  else if current_mode = .discharge then
    if list_min socs < 95 then .boost else .float
  else if current_mode = .boost then
    if list_min socs ≥ 99 then .float else .boost
  else .float

/-- Modelled from the spec's words for the claim being checked: the same
transition rule but driven by the AVERAGE state-of-charge, as the spec's
`OperatingModeState` paragraph states it.  Used only to compare against
`determine_mode`, which is the code's rule. -/
def determine_mode_spec (grid_available scheduled_equalize : Bool) (current_mode : Mode)
    (socs : List ℝ) : Mode :=
  if ¬ grid_available then .discharge
  else if scheduled_equalize then .equalize
  else if current_mode = .discharge then
    if list_avg socs < 95 then .boost else .float
  else if current_mode = .boost then
    if list_avg socs ≥ 99 then .float else .boost
  else .float

/-- The per-battery body of `TelemetryGenerator.update_soc(current_a,
delta_time_hours)`: coulomb counting `ΔSOC = (I·Δt / capacity) × 100`,
clamped to `[0,100]`; when the battery's current capacity is not positive the
SOC is set to 0 (the loop also accumulates `cumulative_ah_throughput` on the
degradation model during discharge, which does not affect the SOC value
computed here). -/
def update_soc_single (current_capacity soc current_a delta_time_hours : ℝ) : ℝ :=
  let ah_change := current_a * delta_time_hours
  if current_capacity > 0 then
    np_clip (soc + ah_change / current_capacity * 100.0) 0 100
  else 0

/-- Modelled from the spec's words for the claim being checked: the SOC update
as the spec states it, with a charge-direction efficiency factor (0.99 when
charging, 1.0 when discharging).  Used only to compare against
`update_soc_single`, which is the code's update. -/
def update_soc_spec (current_capacity soc current_a delta_time_hours : ℝ) : ℝ :=
  np_clip
    (soc + current_a * delta_time_hours / current_capacity * 100.0 *
      (if current_a > 0 then 0.99 else 1.0)) 0 100

/-- The conductance emitted by `TelemetryGenerator.generate_jar_telemetry`:
`1 / (resistance × 0.001)` guarded to 0 when the resistance is not positive. -/
def conductance_s (resistance_mohm : ℝ) : ℝ :=
  if resistance_mohm > 0 then 1.0 / (resistance_mohm * 0.001) else 0

end TelemetryGenerator

/-! ### Digital twin (`digital_twin_ecm.py`) -/

/-- Mutable state of `BatteryECMDigitalTwin`.  The process-noise matrix `Q`
and measurement noise `R` are set in `__init__` and never mutated, so they are
embedded as the constants `Q_mat` and `R_meas` below. -/
@[ext]
structure BatteryECMDigitalTwin where
  battery_id : String
  nominal_capacity_ah : ℝ
  nominal_voltage_v : ℝ
  soc : ℝ
  soh : ℝ
  current_capacity_ah : ℝ
  R0 : ℝ
  R1 : ℝ
  C1 : ℝ
  R2 : ℝ
  C2 : ℝ
  V1 : ℝ
  V2 : ℝ
  temperature_c : ℝ
  cycle_count : ℝ
  ah_throughput : ℝ
  P : Fin 3 → Fin 3 → ℝ

namespace BatteryECMDigitalTwin

/-- `BatteryECMDigitalTwin.__init__`. -/
def init (battery_id : String)
    (nominal_capacity_ah nominal_voltage_v initial_soh : ℝ) :
    BatteryECMDigitalTwin where
  battery_id := battery_id
  nominal_capacity_ah := nominal_capacity_ah
  nominal_voltage_v := nominal_voltage_v
  soc := 100.0
  soh := initial_soh
  current_capacity_ah := nominal_capacity_ah * (initial_soh / 100.0)
  R0 := 0.0035
  R1 := 0.0015
  C1 := 2000.0
  R2 := 0.0010
  C2 := 5000.0
  V1 := 0.0
  V2 := 0.0
  temperature_c := 25.0
  cycle_count := 0
  ah_throughput := 0
  P := fun i j => if i = j then 0.1 else 0

/-- The measurement Jacobian `H = [docv_dsoc, -1, -1]` of `ekf_update`. -/
def H_row : Fin 3 → ℝ := fun i => if i = 0 then 0.009 else -1

/-- The process-noise matrix `Q = 0.001 * eye(3)` set in `__init__`. -/
def Q_mat : Fin 3 → Fin 3 → ℝ := fun i j => if i = j then 0.001 else 0

/-- The measurement-noise scalar `R = 0.01` set in `__init__`. -/
def R_meas : ℝ := 0.01

/-- `BatteryECMDigitalTwin.get_ocv(soc)`: VRLA OCV polynomial attenuated by
the SOH factor. -/
def get_ocv (s : BatteryECMDigitalTwin) (soc : ℝ) : ℝ :=
  let soc_normalized := np_clip (soc / 100.0) 0.0 1.0
  (11.8 + 0.9 * soc_normalized + 0.05 * soc_normalized ^ 3) *
    (0.95 + 0.05 * (s.soh / 100.0))

/-- The SOC component of the EKF state prediction in `ekf_update`:
`x[0] + (I·dt/3600) / current_capacity × 100`.  (The enclosing `ekf_update`
returns `none` before this quotient is taken when the capacity is zero, where
Python raises `ZeroDivisionError`.) -/
def soc_pred (s : BatteryECMDigitalTwin) (current_a dt : ℝ) : ℝ :=
  s.soc + (current_a * dt / 3600.0) / s.current_capacity_ah * 100.0

/-- The `V1` component of the EKF state prediction (also the `V1` update of
`update_rc_states`). -/
def v1_pred (s : BatteryECMDigitalTwin) (current_a dt : ℝ) : ℝ :=
  s.V1 * Real.exp (-dt / (s.R1 * s.C1)) +
    s.R1 * current_a * (1 - Real.exp (-dt / (s.R1 * s.C1)))

/-- The `V2` component of the EKF state prediction (also the `V2` update of
`update_rc_states`). -/
def v2_pred (s : BatteryECMDigitalTwin) (current_a dt : ℝ) : ℝ :=
  s.V2 * Real.exp (-dt / (s.R2 * s.C2)) +
    s.R2 * current_a * (1 - Real.exp (-dt / (s.R2 * s.C2)))

/-- The state-transition Jacobian `F = diag(1, exp(-dt/τ1), exp(-dt/τ2))` of
`ekf_update`. -/
def f_diag (s : BatteryECMDigitalTwin) (dt : ℝ) : Fin 3 → ℝ := fun i =>
  if i = 0 then 1
  else if i = 1 then Real.exp (-dt / (s.R1 * s.C1))
  else Real.exp (-dt / (s.R2 * s.C2))

/-- The predicted covariance `P_pred = F·P·Fᵀ + Q` of `ekf_update`
(componentwise, `F` being diagonal). -/
def p_pred (s : BatteryECMDigitalTwin) (dt : ℝ) : Fin 3 → Fin 3 → ℝ := fun i j =>
  f_diag s dt i * s.P i j * f_diag s dt j + Q_mat i j

/-- The measurement prediction `v_pred = OCV(SOC_pred) - I·R0 - V1_pred -
V2_pred` of `ekf_update` (note: uses the raw `R0`, not temperature-corrected). -/
def v_pred (s : BatteryECMDigitalTwin) (current_a dt : ℝ) : ℝ :=
  get_ocv s (soc_pred s current_a dt) - current_a * s.R0 -
    v1_pred s current_a dt - v2_pred s current_a dt

/-- Component `i` of `P_pred·Hᵀ` in `ekf_update`. -/
def p_h (s : BatteryECMDigitalTwin) (dt : ℝ) (i : Fin 3) : ℝ :=
  p_pred s dt i 0 * H_row 0 + p_pred s dt i 1 * H_row 1 + p_pred s dt i 2 * H_row 2

/-- The scalar innovation covariance `S = H·P_pred·Hᵀ + R` of `ekf_update`. -/
def s_innov (s : BatteryECMDigitalTwin) (dt : ℝ) : ℝ :=
  H_row 0 * p_h s dt 0 + H_row 1 * p_h s dt 1 + H_row 2 * p_h s dt 2 + R_meas

/-- The Kalman gain `K = P_pred·Hᵀ / S[0,0]` of `ekf_update`. -/
def k_gain (s : BatteryECMDigitalTwin) (dt : ℝ) (i : Fin 3) : ℝ :=
  p_h s dt i / s_innov s dt

/-- The covariance update `P = (I - K·H)·P_pred` of `ekf_update`
(componentwise). -/
def p_upd (s : BatteryECMDigitalTwin) (dt : ℝ) : Fin 3 → Fin 3 → ℝ := fun i j =>
  p_pred s dt i j -
    k_gain s dt i *
      (H_row 0 * p_pred s dt 0 j + H_row 1 * p_pred s dt 1 j + H_row 2 * p_pred s dt 2 j)

/-- The SOC estimate after the EKF correction, BEFORE the final clamp to
`[0,100]`: `x_updated[0] = SOC_pred + K[0]·innovation`. -/
def pre_clamp_soc (s : BatteryECMDigitalTwin) (measured_voltage current_a dt : ℝ) : ℝ :=
  soc_pred s current_a dt + k_gain s dt 0 * (measured_voltage - v_pred s current_a dt)

/-- `BatteryECMDigitalTwin.ekf_update(measured_voltage, current_a, dt)`:
predict the state `[SOC, V1, V2]` and covariance, correct by the Kalman gain
times the voltage innovation, clamp SOC to `[0,100]`.  `some` holds exactly
the program's state on the executions whose arithmetic stays real; `none`
covers the remaining executions, in source order:
  - `current_capacity_ah = 0`: Python raises `ZeroDivisionError` at the
    coulomb-count quotient (line 220), before anything else;
  - `R1·C1 = 0` or `R2·C2 = 0`: Python raises `ZeroDivisionError` at the
    `-dt/tau` quotients of the state prediction;
  - `S[0,0] = 0` (singular innovation covariance): the numpy array division
    for the gain does NOT raise but yields `inf`/`nan`, so the program
    continues with a non-real state — in particular `np.clip(nan, 0, 100)`
    is `nan` and the resulting SOC is not confined to `[0,100]`.  A
    real-valued state cannot represent this continuation, so it is excluded
    from `some` rather than silently collapsed. -/
def ekf_update (s : BatteryECMDigitalTwin) (measured_voltage current_a dt : ℝ) :
    Option BatteryECMDigitalTwin :=
  if s.current_capacity_ah = 0 then none
  else if s.R1 * s.C1 = 0 ∨ s.R2 * s.C2 = 0 then none
  else if s_innov s dt = 0 then none
  else
    let innovation := measured_voltage - v_pred s current_a dt
    some { s with
      soc := np_clip (soc_pred s current_a dt + k_gain s dt 0 * innovation) 0 100
      V1 := v1_pred s current_a dt + k_gain s dt 1 * innovation
      V2 := v2_pred s current_a dt + k_gain s dt 2 * innovation
      P := p_upd s dt }

/-- `BatteryECMDigitalTwin.update_rc_states(current_a, dt)`.  `none` exactly
when `R1·C1 = 0` or `R2·C2 = 0`, where Python raises `ZeroDivisionError` at
the `-dt/tau` quotients. -/
def update_rc_states (s : BatteryECMDigitalTwin) (current_a dt : ℝ) :
    Option BatteryECMDigitalTwin :=
  if s.R1 * s.C1 = 0 ∨ s.R2 * s.C2 = 0 then none
  else some { s with V1 := v1_pred s current_a dt, V2 := v2_pred s current_a dt }

/-- `BatteryECMDigitalTwin.update_soc(current_a, dt)`: coulomb counting with a
0.99 coulombic-efficiency factor applied when charging (`current_a > 0`),
clamped to `[0,100]`; also tracks throughput and equivalent cycles.  Returns
`none` exactly when `current_capacity_ah = 0`, where Python raises
`ZeroDivisionError`. -/
def update_soc (s : BatteryECMDigitalTwin) (current_a dt : ℝ) :
    Option BatteryECMDigitalTwin :=
  if s.current_capacity_ah = 0 then none
  else
    let ah_raw := current_a * dt / 3600.0
    let ah_change := if current_a > 0 then ah_raw * 0.99 else ah_raw
    let soc_change := ah_change / s.current_capacity_ah * 100.0
    some { s with
      soc := np_clip (s.soc + soc_change) 0 100
      ah_throughput := s.ah_throughput + |ah_change|
      cycle_count :=
        if |ah_change| > 0.1 then s.cycle_count + |ah_change| / s.nominal_capacity_ah
        else s.cycle_count }

/-- `BatteryECMDigitalTwin.update_soh(dt_hours, temperature_c)`: calendar fade
accelerated by temperature; capacity and the ECM resistances are recomputed
from the new SOH.  (The source computes a `cycle_fade` local variable that it
never uses; it is omitted.) -/
def update_soh (s : BatteryECMDigitalTwin) (dt_hours temperature_c : ℝ) :
    BatteryECMDigitalTwin :=
  let temp_accel := Real.exp (0.03 * (temperature_c - 25.0))
  let calendar_fade := 0.00000228 * dt_hours * temp_accel * 100
  let new_soh := max 0 (s.soh - calendar_fade)
  { s with
    soh := new_soh
    current_capacity_ah := s.nominal_capacity_ah * (new_soh / 100.0)
    R0 := 0.0035 * (1.5 - 0.5 * (new_soh / 100.0))
    R1 := 0.0015 * (1.5 - 0.5 * (new_soh / 100.0))
    R2 := 0.0010 * (1.5 - 0.5 * (new_soh / 100.0)) }

/-- `BatteryECMDigitalTwin.get_terminal_voltage(current_a)`: ECM terminal
voltage with temperature-corrected `R0`. -/
def get_terminal_voltage (s : BatteryECMDigitalTwin) (current_a : ℝ) : ℝ :=
  get_ocv s s.soc -
    current_a * (s.R0 * (1.0 + (25.0 - s.temperature_c) * 0.01)) - s.V1 - s.V2

/-- `BatteryECMDigitalTwin.predict_rul(eol_threshold)`: 0 at/under the
threshold, otherwise linear extrapolation with temperature and cycle-count
acceleration. -/
def predict_rul (s : BatteryECMDigitalTwin) (eol_threshold : ℝ) : ℝ :=
  if s.soh ≤ eol_threshold then 0.0
  else
    let temp_accel := Real.exp (0.03 * (s.temperature_c - 25.0))
    let cycle_accel : ℝ :=
      if s.cycle_count > 500 then 1.5 else if s.cycle_count > 200 then 1.2 else 1.0
    let total_degradation_rate := 2.0 / 365.0 * temp_accel * cycle_accel
    max 0 ((s.soh - eol_threshold) / total_degradation_rate)

/-- The dictionary returned by `BatteryECMDigitalTwin.step`: its exact field
set, in source order. -/
@[ext]
structure StepSnapshot where
  battery_id : String
  soc : ℝ
  soh : ℝ
  capacity_ah : ℝ
  R0 : ℝ
  R1 : ℝ
  R2 : ℝ
  C1 : ℝ
  C2 : ℝ
  V1 : ℝ
  V2 : ℝ
  predicted_voltage : ℝ
  voltage_error : ℝ
  rul_days : ℝ
  cycle_count : ℝ
  ah_throughput : ℝ
  temperature_c : ℝ

/-- `BatteryECMDigitalTwin.step(measured_voltage, measured_current,
temperature_c, dt, use_ekf)`: set the temperature, run the EKF correction (or
the simple RC/coulomb update), run the slow SOH update, and return the new
state together with the snapshot dictionary.  `none` exactly where the chosen
update raises or leaves the real numbers (see `ekf_update`, `update_rc_states`
and `update_soc`). -/
def step (s : BatteryECMDigitalTwin)
    (measured_voltage measured_current temperature_c dt : ℝ) (use_ekf : Bool) :
    Option (BatteryECMDigitalTwin × StepSnapshot) :=
  let s0 := { s with temperature_c := temperature_c }
  let s1? :=
    if use_ekf then ekf_update s0 measured_voltage measured_current dt
    else (update_rc_states s0 measured_current dt).bind
      fun s1 => update_soc s1 measured_current dt
  s1?.map fun s1 =>
    let s2 := update_soh s1 (dt / 3600.0) temperature_c
    let pv := get_terminal_voltage s2 measured_current
    (s2,
      { battery_id := s2.battery_id
        soc := s2.soc
        soh := s2.soh
        capacity_ah := s2.current_capacity_ah
        R0 := s2.R0
        R1 := s2.R1
        R2 := s2.R2
        C1 := s2.C1
        C2 := s2.C2
        V1 := s2.V1
        V2 := s2.V2
        predicted_voltage := pv
        voltage_error := |measured_voltage - pv|
        rul_days := predict_rul s2 80.0
        cycle_count := s2.cycle_count
        ah_throughput := s2.ah_throughput
        temperature_c := s2.temperature_c })

end BatteryECMDigitalTwin

/-- `HybridPredictor` (`digital_twin_ecm.py`): a digital twin plus an optional
attached ML model (only its presence matters to the fusion logic) and the
static fusion weights. -/
structure HybridPredictor where
  digital_twin : BatteryECMDigitalTwin
  ml_model : Option Unit
  weight_dt : ℝ
  weight_ml : ℝ

namespace HybridPredictor

/-- `HybridPredictor.predict_rul_weighted(ml_prediction, dt_confidence,
ml_confidence)`: when an ML prediction and an ML model are both present,
confidence-weighted fusion with geometric-mean confidence; otherwise the
digital twin's own prediction with the twin confidence. -/
def predict_rul_weighted (hp : HybridPredictor) (ml_prediction : Option ℝ)
    (dt_confidence ml_confidence : ℝ) : ℝ × ℝ :=
  let dt_rul := hp.digital_twin.predict_rul 80.0
  match ml_prediction, hp.ml_model with
  | some mlp, some _ =>
      let total_weight := dt_confidence + ml_confidence
      ((dt_rul * dt_confidence + mlp * ml_confidence) / total_weight,
        Real.sqrt (dt_confidence * ml_confidence))
  | _, _ => (dt_rul, dt_confidence)

end HybridPredictor

/-! ### Power-outage generation (`thailand_environment.py`) -/

/-- The random draws consumed for one outage in
`ThailandEnvironmentModel.generate_power_outage_events`: the start day within
the window, the hour (from the storm-hour distribution in the rainy season,
uniform otherwise — in both cases a value in `0..23`), the start minute, and
the log-normally drawn duration after Python's `int(...)` truncation (a
nonnegative number of minutes, before the 480-minute cap). -/
structure OutageDraw where
  day : ℕ
  hour : ℕ
  minute : ℕ
  raw_duration_min : ℕ

/-- The `(outage_start, outage_end)` interval built from one draw, as minutes
from the window start (the window start is taken at midnight): the start is
`day·1440 + hour·60 + minute` and the duration is capped at 480 minutes. -/
def outage_interval (d : OutageDraw) : ℕ × ℕ :=
  let start := d.day * 1440 + d.hour * 60 + d.minute
  (start, start + min d.raw_duration_min 480)

/-- Ascending lexicographic order on `(start, end)` pairs — the order Python's
`sorted` uses on tuples. -/
def outage_le (a b : ℕ × ℕ) : Prop := a.1 < b.1 ∨ (a.1 = b.1 ∧ a.2 ≤ b.2)

instance : DecidableRel outage_le := fun a b => by
  unfold outage_le; infer_instance

instance : IsTotal (ℕ × ℕ) outage_le := ⟨fun a b => by unfold outage_le; omega⟩

instance : IsTrans (ℕ × ℕ) outage_le :=
  ⟨fun a b c h1 h2 => by unfold outage_le at h1 h2 ⊢; omega⟩

/-- `ThailandEnvironmentModel.generate_power_outage_events(start, end)`: build
one interval per outage draw and return them sorted ascending (Python's
`sorted` on datetime tuples; `outage_le` is antisymmetric, so any sorted
permutation — here an insertion sort — is that unique result).  The number of
draws (`int(outages_per_year × years)`) is the length of the supplied draw
list. -/
def generate_power_outage_events (draws : List OutageDraw) : List (ℕ × ℕ) :=
  List.insertionSort outage_le (draws.map outage_interval)

/-- Two half-open outage intervals do not overlap: one ends before the other
starts. -/
def no_overlap (a b : ℕ × ℕ) : Prop := a.2 ≤ b.1 ∨ b.2 ≤ a.1

instance : DecidableRel no_overlap := fun a b => by
  unfold no_overlap; infer_instance

/-! ### Concrete instances used in witnesses and counterexamples -/

/-- A freshly installed healthy-profile battery: 100 Ah, 5 mΩ. -/
def fresh_healthy_battery : BatteryDegradationModel :=
  BatteryDegradationModel.init "BATT-001" 100.0 5.0 healthy_profile

/-- A 90%-SOH healthy battery whose state satisfies the capacity/SOH link. -/
def aged_battery_90 : BatteryDegradationModel :=
  { fresh_healthy_battery with current_soh_pct := 90.0, current_capacity_ah := 90.0 }

/-- A failed battery. -/
def failed_battery : BatteryDegradationModel :=
  { fresh_healthy_battery with failed := true }

/-- A battery aged to 75% SOH (at/under the default EOL threshold 80). -/
def battery_soh_75 : BatteryDegradationModel :=
  { fresh_healthy_battery with
    current_soh_pct := 75.0
    current_capacity_ah := 75.0
    calendar_age_days := 500.0 }

/-- A non-degrading battery: five days old and still at SOH 100. -/
def non_degrading_battery : BatteryDegradationModel :=
  { fresh_healthy_battery with calendar_age_days := 5.0 }

/-- A default digital twin (120 Ah, 12 V, SOH 100). -/
def twin_default : BatteryECMDigitalTwin :=
  BatteryECMDigitalTwin.init "DT-001" 120.0 12.0 100.0

/-- A digital twin whose covariance matrix has been driven indefinite so that
at `dt = 0` the innovation covariance `S = H·(P+Q)·Hᵀ + R` is exactly zero:
the single nonzero entry `P[1,1] = −0.012000081` cancels
`0.009²·0.001 + 0.001 + 0.001 + 0.01`.  On this state the program's
Kalman-gain division produces `inf`/`nan` without raising. -/
def twin_singular : BatteryECMDigitalTwin :=
  { twin_default with P := fun i j => if i = 1 ∧ j = 1 then -0.012000081 else 0 }

/-- A digital twin constructed with zero nominal capacity, so its current
capacity is zero. -/
def twin_zero_capacity : BatteryECMDigitalTwin :=
  BatteryECMDigitalTwin.init "DT-000" 0.0 12.0 100.0

/-- A 1 Ah digital twin at SOC 100, used to drive the EKF prediction out of
the `[−10, 110]` band within one step. -/
def twin_small_a : BatteryECMDigitalTwin :=
  BatteryECMDigitalTwin.init "DT-SM" 1.0 12.0 100.0

/-- The same twin at SOC 95, for which the same step stays inside the band. -/
def twin_small_b : BatteryECMDigitalTwin :=
  { twin_small_a with soc := 95.0 }

/-- The current used in the paired EKF steps: 0.15 A charging. -/
def c5_current : ℝ := 0.15

/-- The time step used in the paired EKF steps: 3600 s. -/
def c5_dt : ℝ := 3600.0

/-- A measured voltage chosen equal to the filter's own predicted voltage for
`twin_small_a`, so the innovation is zero for that twin. -/
def c5_measured : ℝ := BatteryECMDigitalTwin.v_pred twin_small_a c5_current c5_dt

/-- A hybrid predictor with no attached ML model. -/
def hybrid_no_ml : HybridPredictor :=
  { digital_twin := twin_default, ml_model := none, weight_dt := 0.6, weight_ml := 0.4 }

/-- A hybrid predictor with an attached ML model. -/
def hybrid_with_ml : HybridPredictor :=
  { digital_twin := twin_default, ml_model := some (), weight_dt := 0.6, weight_ml := 0.4 }

/-- Outage draw: day 0, 00:00, 100 minutes. -/
def outage_draw_a : OutageDraw := ⟨0, 0, 0, 100⟩

/-- Outage draw: day 0, 00:30, 100 minutes — starts inside the previous one. -/
def outage_draw_b : OutageDraw := ⟨0, 0, 30, 100⟩

/-! ### Theorems -/

/-- Helper: the Arrhenius factor is exactly 1 at the 25 °C reference. -/
theorem accel_at_reference : get_temperature_acceleration_factor 25 = 1 := by
  unfold get_temperature_acceleration_factor
  rw [show (25 : ℝ) + 273.15 = 298.15 by norm_num, sub_self, mul_zero, Real.exp_zero]

/-- C6 (amended): the temperature acceleration factor is exactly 1 at the
25 °C reference, is strictly increasing for all temperatures above absolute
zero (−273.15 °C), and the 35 °C / 25 °C ratio equals
`exp((Ea/k)(1/298.15 − 1/308.15))` with `Ea = 0.7` eV, `k = 8.617e-5` eV/K. -/
theorem C6_arrhenius_properties (t1 t2 : ℝ) (h0 : -273.15 < t1) (h12 : t1 < t2) :
    get_temperature_acceleration_factor 25 = 1 ∧
    get_temperature_acceleration_factor t1 < get_temperature_acceleration_factor t2 ∧
    get_temperature_acceleration_factor 35 / get_temperature_acceleration_factor 25 =
      Real.exp ((0.7 / 8.617e-5) * (1 / 298.15 - 1 / 308.15)) := by
  refine ⟨accel_at_reference, ?_, ?_⟩
  · unfold get_temperature_acceleration_factor
    apply Real.exp_lt_exp.mpr
    have hc : (0 : ℝ) < 0.7 / 8.617e-5 := by norm_num
    apply mul_lt_mul_of_pos_left _ hc
    have ht1 : (0 : ℝ) < t1 + 273.15 := by linarith
    have ht2 : t1 + 273.15 < t2 + 273.15 := by linarith
    have := one_div_lt_one_div_of_lt ht1 ht2
    linarith
  · rw [accel_at_reference, div_one]
    unfold get_temperature_acceleration_factor
    rw [show (35 : ℝ) + 273.15 = 308.15 by norm_num]

/-- Witness for `C6_arrhenius_properties` at `t1 = 25`, `t2 = 35`. -/
theorem C6_arrhenius_properties_witness :
    (-273.15 : ℝ) < 25 ∧ (25 : ℝ) < 35 ∧
    (get_temperature_acceleration_factor 25 = 1 ∧
     get_temperature_acceleration_factor 25 < get_temperature_acceleration_factor 35 ∧
     get_temperature_acceleration_factor 35 / get_temperature_acceleration_factor 25 =
       Real.exp ((0.7 / 8.617e-5) * (1 / 298.15 - 1 / 308.15))) :=
  ⟨by norm_num, by norm_num, C6_arrhenius_properties 25 35 (by norm_num) (by norm_num)⟩

/-- C6 counterexample: the factor is NOT strictly increasing over all
temperatures the code accepts: at −1000 °C (an unphysical but representable
input, below absolute zero) the factor exceeds the factor at 25 °C. -/
theorem C6_counterexample :
    (-1000 : ℝ) < 25 ∧
    get_temperature_acceleration_factor 25 < get_temperature_acceleration_factor (-1000) := by
  refine ⟨by norm_num, ?_⟩
  rw [accel_at_reference]
  unfold get_temperature_acceleration_factor
  rw [show (-1000 : ℝ) + 273.15 = -726.85 by norm_num]
  rw [Real.one_lt_exp_iff]
  norm_num

/-- C7: `estimate_rul_days` returns 0 for a failed battery and for a battery
at/under the default EOL threshold 80, and a value strictly above 1000 days
for a freshly created healthy-profile battery. -/
theorem C7_rul_endpoints (m1 m2 : BatteryDegradationModel)
    (h1 : m1.failed = true) (h2 : m2.current_soh_pct ≤ 80) :
    m1.estimate_rul_days 80 = 0 ∧ m2.estimate_rul_days 80 = 0 ∧
    1000 < fresh_healthy_battery.estimate_rul_days 80 := by
  refine ⟨?_, ?_, ?_⟩
  · unfold BatteryDegradationModel.estimate_rul_days
    rw [h1]
    norm_num
  · unfold BatteryDegradationModel.estimate_rul_days
    by_cases hf : m2.failed = true
    · rw [hf]; norm_num
    · simp only [hf, if_false, if_pos h2]
      norm_num
  · norm_num [BatteryDegradationModel.estimate_rul_days, fresh_healthy_battery,
      BatteryDegradationModel.init, healthy_profile, max_def]

/-- Witness for `C7_rul_endpoints` at a failed battery and a battery aged to
75% SOH. -/
theorem C7_rul_endpoints_witness :
    failed_battery.failed = true ∧ battery_soh_75.current_soh_pct ≤ 80 ∧
    (failed_battery.estimate_rul_days 80 = 0 ∧
     battery_soh_75.estimate_rul_days 80 = 0 ∧
     1000 < fresh_healthy_battery.estimate_rul_days 80) :=
  ⟨rfl, by norm_num [battery_soh_75], C7_rul_endpoints failed_battery battery_soh_75 rfl
    (by norm_num [battery_soh_75])⟩

/-- C9: a battery that is not failed, strictly above the EOL threshold, older
than zero days and still at (or above) SOH 100 has a non-positive observed
degradation rate, and `estimate_rul_days` returns the sentinel 9999.0. -/
theorem C9_nondegrading_sentinel (m : BatteryDegradationModel) (thr : ℝ)
    (hf : m.failed = false) (hthr : thr < m.current_soh_pct)
    (hage : 0 < m.calendar_age_days) (hsoh : 100 ≤ m.current_soh_pct) :
    m.estimate_rul_days thr = 9999 := by
  unfold BatteryDegradationModel.estimate_rul_days
  rw [hf]
  simp only [Bool.false_eq_true, if_false]
  rw [if_neg (not_le.mpr hthr)]
  have hrate :
      (if m.calendar_age_days > 0 then
        (100.0 - m.current_soh_pct) / m.calendar_age_days
      else m.profile.soh_decline_pct_per_year / 365.0) ≤ 0 := by
    rw [if_pos hage]
    apply div_nonpos_of_nonpos_of_nonneg
    · linarith
    · linarith
  rw [if_pos hrate]
  norm_num

/-- Witness for `C9_nondegrading_sentinel` at a five-day-old battery still at
SOH 100. -/
theorem C9_nondegrading_sentinel_witness :
    non_degrading_battery.failed = false ∧
    (80 : ℝ) < non_degrading_battery.current_soh_pct ∧
    0 < non_degrading_battery.calendar_age_days ∧
    (100 : ℝ) ≤ non_degrading_battery.current_soh_pct ∧
    non_degrading_battery.estimate_rul_days 80 = 9999 :=
  ⟨rfl, by norm_num [non_degrading_battery, fresh_healthy_battery, BatteryDegradationModel.init],
   by norm_num [non_degrading_battery, fresh_healthy_battery, BatteryDegradationModel.init],
   by norm_num [non_degrading_battery, fresh_healthy_battery, BatteryDegradationModel.init],
   C9_nondegrading_sentinel non_degrading_battery 80 rfl
     (by norm_num [non_degrading_battery, fresh_healthy_battery, BatteryDegradationModel.init])
     (by norm_num [non_degrading_battery, fresh_healthy_battery, BatteryDegradationModel.init])
     (by norm_num [non_degrading_battery, fresh_healthy_battery, BatteryDegradationModel.init])⟩

/-- C10: when the ML prediction is absent or no ML model is attached,
`predict_rul_weighted` returns exactly the digital twin's own prediction
paired with the twin confidence, independent of the ML confidence. -/
theorem C10_ml_fallback (hp : HybridPredictor) (pred : Option ℝ) (dc mc : ℝ)
    (h : pred = none ∨ hp.ml_model = none) :
    hp.predict_rul_weighted pred dc mc = (hp.digital_twin.predict_rul 80.0, dc) := by
  obtain ⟨tw, mm, wd, wm⟩ := hp
  unfold HybridPredictor.predict_rul_weighted
  rcases h with h | h
  · subst h
    cases mm <;> rfl
  · cases mm with
    | none => cases pred <;> rfl
    | some u => exact Option.noConfusion h

/-- Witness for `C10_ml_fallback`: an ML prediction is supplied but no model
is attached; the ML confidence 0.9 does not enter the result. -/
theorem C10_ml_fallback_witness :
    (some (500 : ℝ) = none ∨ hybrid_no_ml.ml_model = none) ∧
    hybrid_no_ml.predict_rul_weighted (some 500) 0.8 0.9 =
      (hybrid_no_ml.digital_twin.predict_rul 80.0, 0.8) :=
  ⟨Or.inr rfl, C10_ml_fallback hybrid_no_ml (some 500) 0.8 0.9 (Or.inr rfl)⟩

/-- C2 counterexample: at capacity 100 Ah, SOC 50%, charging at 10 A for one
hour, the telemetry synthesizer's SOC update yields 60 (no efficiency
factor), while the spec's update (0.99 charge efficiency) yields 59.9. -/
theorem C2_counterexample :
    TelemetryGenerator.update_soc_single 100 50 10 1 = 60 ∧
    TelemetryGenerator.update_soc_spec 100 50 10 1 = 59.9 ∧
    TelemetryGenerator.update_soc_single 100 50 10 1 ≠
      TelemetryGenerator.update_soc_spec 100 50 10 1 := by
  refine ⟨?_, ?_, ?_⟩ <;>
    norm_num [TelemetryGenerator.update_soc_single, TelemetryGenerator.update_soc_spec,
      np_clip]

/-- C2 (amended): the telemetry synthesizer's SOC update applies NO
charge-direction efficiency factor — it is `clip(soc + (I·Δt/cap)·100, 0,
100)`; the 0.99-on-charge/1.0-on-discharge efficiency factor lives in the
digital twin's `update_soc` (whose `Δt` is in seconds, hence the 3600
divisor). -/
theorem C2_soc_update_characterisation (cap soc current_a dt_h : ℝ)
    (s : BatteryECMDigitalTwin) (ia dts : ℝ)
    (hcap : 0 < cap) (hs : s.current_capacity_ah ≠ 0) :
    TelemetryGenerator.update_soc_single cap soc current_a dt_h =
      np_clip (soc + current_a * dt_h / cap * 100.0) 0 100 ∧
    ∃ s', s.update_soc ia dts = some s' ∧
      s'.soc = np_clip
        (s.soc + (if ia > 0 then (0.99 : ℝ) else 1.0) * (ia * dts / 3600.0) /
          s.current_capacity_ah * 100.0) 0 100 := by
  constructor
  · unfold TelemetryGenerator.update_soc_single
    rw [if_pos hcap]
  · unfold BatteryECMDigitalTwin.update_soc
    rw [if_neg hs]
    refine ⟨_, rfl, ?_⟩
    show np_clip _ 0 100 = np_clip _ 0 100
    congr 1
    by_cases hI : ia > 0
    · rw [if_pos hI, if_pos hI]; ring
    · rw [if_neg hI, if_neg hI]; ring

/-- Witness for `C2_soc_update_characterisation` at capacity 100, SOC 50,
discharge current −5 A, and the default twin charging at 1 A for 3600 s. -/
theorem C2_soc_update_characterisation_witness :
    (0 : ℝ) < 100 ∧ twin_default.current_capacity_ah ≠ 0 ∧
    (TelemetryGenerator.update_soc_single 100 50 (-5) 1 =
      np_clip (50 + (-5) * 1 / 100 * 100.0) 0 100 ∧
     ∃ s', twin_default.update_soc 1 3600 = some s' ∧
      s'.soc = np_clip
        (twin_default.soc + (if (1 : ℝ) > 0 then (0.99 : ℝ) else 1.0) *
          ((1 : ℝ) * 3600 / 3600.0) / twin_default.current_capacity_ah * 100.0) 0 100) :=
  ⟨by norm_num,
   by norm_num [twin_default, BatteryECMDigitalTwin.init],
   C2_soc_update_characterisation 100 50 (-5) 1 twin_default 1 3600 (by norm_num)
     (by norm_num [twin_default, BatteryECMDigitalTwin.init])⟩

/-- C3 counterexample: with two batteries at SOC 90 and 100 and the string
coming out of `discharge` on a healthy grid, the code (driven by the MINIMUM
SOC, 90 < 95) selects `boost`, while the claim's rule (driven by the AVERAGE
SOC, 95 ≮ 95) selects `float`. -/
theorem C3_counterexample :
    TelemetryGenerator.determine_mode true false .discharge [90.0, 100.0] = .boost ∧
    TelemetryGenerator.determine_mode_spec true false .discharge [90.0, 100.0] = .float ∧
    Mode.boost ≠ Mode.float := by
  refine ⟨?_, ?_, by decide⟩
  · norm_num [TelemetryGenerator.determine_mode, list_min]
  · norm_num [TelemetryGenerator.determine_mode_spec, list_avg]

/-- C3 (amended): the mode transition is a pure function of (grid
availability, scheduled-equalization flag, previous mode, MINIMUM
state-of-charge): grid unavailable ⇒ discharge; else scheduled equalization ⇒
equalize; else from discharge: boost when the minimum SOC < 95 else float;
from boost: float when the minimum SOC ≥ 99 else boost; otherwise float. -/
theorem C3_mode_transition (g e : Bool) (m : Mode) (socs : List ℝ) :
    (g = false → TelemetryGenerator.determine_mode g e m socs = .discharge) ∧
    (g = true → e = true → TelemetryGenerator.determine_mode g e m socs = .equalize) ∧
    (g = true → e = false → m = .discharge → list_min socs < 95 →
      TelemetryGenerator.determine_mode g e m socs = .boost) ∧
    (g = true → e = false → m = .discharge → ¬ list_min socs < 95 →
      TelemetryGenerator.determine_mode g e m socs = .float) ∧
    (g = true → e = false → m = .boost → 99 ≤ list_min socs →
      TelemetryGenerator.determine_mode g e m socs = .float) ∧
    (g = true → e = false → m = .boost → ¬ 99 ≤ list_min socs →
      TelemetryGenerator.determine_mode g e m socs = .boost) ∧
    (g = true → e = false → m ≠ .discharge → m ≠ .boost →
      TelemetryGenerator.determine_mode g e m socs = .float) := by
  refine ⟨?_, ?_, ?_, ?_, ?_, ?_, ?_⟩
  · intro hg; subst hg; rfl
  · intro hg he; subst hg; subst he; rfl
  · intro hg he hm hlt; subst hg; subst he; subst hm
    simp [TelemetryGenerator.determine_mode, hlt]
  · intro hg he hm hlt; subst hg; subst he; subst hm
    simp [TelemetryGenerator.determine_mode, hlt]
  · intro hg he hm hge; subst hg; subst he; subst hm
    simp [TelemetryGenerator.determine_mode, hge]
  · intro hg he hm hge; subst hg; subst he; subst hm
    simp [TelemetryGenerator.determine_mode, hge]
  · intro hg he hm1 hm2; subst hg; subst he
    cases m <;> simp_all [TelemetryGenerator.determine_mode]

/-- Witness for `C3_mode_transition`: recovery from discharge with minimum
SOC 90 enters boost. -/
theorem C3_mode_transition_witness :
    list_min [90.0, 100.0] < 95 ∧
    TelemetryGenerator.determine_mode true false .discharge [90.0, 100.0] = .boost :=
  ⟨by norm_num [list_min],
   (C3_mode_transition true false .discharge [90.0, 100.0]).2.2.1 rfl rfl rfl
     (by norm_num [list_min])⟩

/-- C4 counterexample: with zero capacity and SOC 50 the telemetry SOC update
sets the SOC to 0 — a SOC-CHANGE of −50, not 0 — and the digital twin's EKF
update is not guarded at all: at zero capacity it raises (embedded as
`none`) instead of returning a zero SOC-change. -/
theorem C4_counterexample :
    TelemetryGenerator.update_soc_single 0 50 10 1 = 0 ∧
    TelemetryGenerator.update_soc_single 0 50 10 1 - 50 ≠ 0 ∧
    twin_zero_capacity.ekf_update 12.6 1.0 60.0 = none := by
  refine ⟨?_, ?_, ?_⟩
  · norm_num [TelemetryGenerator.update_soc_single]
  · norm_num [TelemetryGenerator.update_soc_single]
  · unfold BatteryECMDigitalTwin.ekf_update
    rw [if_pos (by norm_num [twin_zero_capacity, BatteryECMDigitalTwin.init])]

/-- C4 (amended): the telemetry synthesizer's SOC update at zero capacity
sets the SOC to 0 (raising no exception), the emitted conductance is 0 for
any non-positive resistance, but the digital twin's EKF SOC prediction is NOT
guarded: at zero capacity its division raises (`none`). -/
theorem C4_division_guards (soc current_a dt_h r : ℝ) (s : BatteryECMDigitalTwin)
    (mv ia dts : ℝ) (hr : r ≤ 0) (hs : s.current_capacity_ah = 0) :
    TelemetryGenerator.update_soc_single 0 soc current_a dt_h = 0 ∧
    TelemetryGenerator.conductance_s r = 0 ∧
    s.ekf_update mv ia dts = none := by
  refine ⟨?_, ?_, ?_⟩
  · unfold TelemetryGenerator.update_soc_single
    rw [if_neg (lt_irrefl 0)]
  · unfold TelemetryGenerator.conductance_s
    rw [if_neg (not_lt.mpr hr)]
  · unfold BatteryECMDigitalTwin.ekf_update
    rw [if_pos hs]

/-- Witness for `C4_division_guards` at resistance −1 mΩ and the
zero-capacity twin. -/
theorem C4_division_guards_witness :
    (-1 : ℝ) ≤ 0 ∧ twin_zero_capacity.current_capacity_ah = 0 ∧
    (TelemetryGenerator.update_soc_single 0 40 2 1 = 0 ∧
     TelemetryGenerator.conductance_s (-1) = 0 ∧
     twin_zero_capacity.ekf_update 12.0 0.5 5.0 = none) :=
  ⟨by norm_num,
   by norm_num [twin_zero_capacity, BatteryECMDigitalTwin.init],
   C4_division_guards 40 2 1 (-1) twin_zero_capacity 12.0 0.5 5.0 (by norm_num)
     (by norm_num [twin_zero_capacity, BatteryECMDigitalTwin.init])⟩

/-- C8 counterexample: two draws on the same day at 00:00 and 00:30, each
lasting 100 minutes, produce the sorted list `[(0,100), (30,130)]` whose two
intervals overlap — the generator does nothing to prevent overlap. -/
theorem C8_counterexample :
    generate_power_outage_events [outage_draw_a, outage_draw_b] = [(0, 100), (30, 130)] ∧
    ¬ List.Pairwise no_overlap
        (generate_power_outage_events [outage_draw_a, outage_draw_b]) := by
  constructor <;> decide

/-- C8 (amended): for every draw list the returned interval list is sorted
ascending (lexicographically on (start, end)) and every interval lasts at
most 480 minutes; overlap, however, is possible. -/
theorem C8_outage_structure (draws : List OutageDraw) (iv : ℕ × ℕ)
    (hmem : iv ∈ generate_power_outage_events draws) :
    List.Sorted outage_le (generate_power_outage_events draws) ∧
    iv.2 - iv.1 ≤ 480 := by
  constructor
  · exact List.sorted_insertionSort outage_le _
  · have hmem2 : iv ∈ draws.map outage_interval :=
      (List.perm_insertionSort outage_le (draws.map outage_interval)).mem_iff.mp hmem
    obtain ⟨d, hd, rfl⟩ := List.mem_map.mp hmem2
    simp only [outage_interval]
    omega

/-- Witness for `C8_outage_structure` at a single draw. -/
theorem C8_outage_structure_witness :
    ((0, 100) : ℕ × ℕ) ∈ generate_power_outage_events [outage_draw_a] ∧
    (List.Sorted outage_le (generate_power_outage_events [outage_draw_a]) ∧
     (100 : ℕ) - 0 ≤ 480) :=
  ⟨by decide, C8_outage_structure [outage_draw_a] (0, 100) (by decide)⟩

/-- C1 counterexample: a healthy battery at SOH 90 / capacity 90 (invariant
holds) suffers a firing sudden-failure check (uniform draw 0 < 0.0001); the
new state has SOH 0 and `failed = true` but retains capacity 90 ≠ 100 ×
(0/100), so the capacity/SOH invariant is violated right after
`check_sudden_failure`. -/
theorem C1_counterexample :
    capacity_soh_invariant aged_battery_90 ∧
    (aged_battery_90.check_sudden_failure 1000.0 0.0 0.5).1.failed = true ∧
    (aged_battery_90.check_sudden_failure 1000.0 0.0 0.5).1.current_soh_pct = 0 ∧
    ¬ capacity_soh_invariant (aged_battery_90.check_sudden_failure 1000.0 0.0 0.5).1 := by
  refine ⟨?_, ?_, ?_, ?_⟩ <;>
    norm_num [capacity_soh_invariant, BatteryDegradationModel.check_sudden_failure,
      BatteryDegradationModel.failure_probability, aged_battery_90,
      fresh_healthy_battery, BatteryDegradationModel.init, healthy_profile]

/-- C1 (amended): the invariant `capacity = initial_capacity × (SOH/100)`
holds after every `update_calendar_aging` and every `update_cycle_aging`
call; `check_sudden_failure` either leaves the whole state unchanged
(preserving the invariant) or fires, setting SOH to 0 and `failed = true`
while leaving the capacity at its pre-failure value (breaking the
invariant whenever that capacity was nonzero). -/
theorem C1_capacity_link (m : BatteryDegradationModel)
    (dt tc vv ah dod tcy t u um : ℝ) (hinv : capacity_soh_invariant m) :
    capacity_soh_invariant (m.update_calendar_aging dt tc vv) ∧
    capacity_soh_invariant (m.update_cycle_aging ah dod tcy) ∧
    (capacity_soh_invariant (m.check_sudden_failure t u um).1 ∨
      ((m.check_sudden_failure t u um).1.current_soh_pct = 0 ∧
       (m.check_sudden_failure t u um).1.current_capacity_ah = m.current_capacity_ah ∧
       (m.check_sudden_failure t u um).1.failed = true)) := by
  refine ⟨rfl, rfl, ?_⟩
  unfold BatteryDegradationModel.check_sudden_failure
  by_cases h1 : m.failed = true
  · rw [if_pos h1]
    exact Or.inl hinv
  · rw [if_neg h1]
    by_cases h2 : u < m.failure_probability
    · rw [if_pos h2]
      exact Or.inr ⟨by norm_num, rfl, rfl⟩
    · rw [if_neg h2]
      exact Or.inl hinv

/-- Witness for `C1_capacity_link` at the SOH-90 battery with a non-firing
draw (u = 0.9 ≥ 0.0001). -/
theorem C1_capacity_link_witness :
    capacity_soh_invariant aged_battery_90 ∧
    (capacity_soh_invariant (aged_battery_90.update_calendar_aging 24 30 13.65) ∧
     capacity_soh_invariant (aged_battery_90.update_cycle_aging 10 40 30) ∧
     (capacity_soh_invariant (aged_battery_90.check_sudden_failure 1000.0 0.9 0.5).1 ∨
      ((aged_battery_90.check_sudden_failure 1000.0 0.9 0.5).1.current_soh_pct = 0 ∧
       (aged_battery_90.check_sudden_failure 1000.0 0.9 0.5).1.current_capacity_ah =
         aged_battery_90.current_capacity_ah ∧
       (aged_battery_90.check_sudden_failure 1000.0 0.9 0.5).1.failed = true))) :=
  ⟨by norm_num [capacity_soh_invariant, aged_battery_90, fresh_healthy_battery,
      BatteryDegradationModel.init],
   C1_capacity_link aged_battery_90 24 30 13.65 10 40 30 1000.0 0.9 0.5
     (by norm_num [capacity_soh_invariant, aged_battery_90, fresh_healthy_battery,
        BatteryDegradationModel.init])⟩

/-- Helper: the EKF SOC prediction for the 1 Ah twin at SOC 100, charging at
0.15 A for 3600 s, is 115 — outside the `[−10, 110]` band. -/
theorem soc_pred_small_a :
    BatteryECMDigitalTwin.soc_pred twin_small_a c5_current c5_dt = 115 := by
  norm_num [BatteryECMDigitalTwin.soc_pred, twin_small_a, BatteryECMDigitalTwin.init,
    c5_current, c5_dt]

/-- Helper: for the same twin at SOC 95 the same step predicts 110 — inside
the band. -/
theorem soc_pred_small_b :
    BatteryECMDigitalTwin.soc_pred twin_small_b c5_current c5_dt = 110 := by
  norm_num [BatteryECMDigitalTwin.soc_pred, twin_small_b, twin_small_a,
    BatteryECMDigitalTwin.init, c5_current, c5_dt]

/-- Helper: both predictions saturate the OCV curve (the normalized SOC clamps
to 1), so the two twins' predicted voltages coincide. -/
theorem v_pred_small_eq :
    BatteryECMDigitalTwin.v_pred twin_small_b c5_current c5_dt =
      BatteryECMDigitalTwin.v_pred twin_small_a c5_current c5_dt := by
  unfold BatteryECMDigitalTwin.v_pred
  rw [soc_pred_small_a, soc_pred_small_b]
  norm_num [BatteryECMDigitalTwin.get_ocv, BatteryECMDigitalTwin.v1_pred,
    BatteryECMDigitalTwin.v2_pred, np_clip, twin_small_b, twin_small_a,
    BatteryECMDigitalTwin.init, c5_current, c5_dt]

/-- Helper: with the measured voltage chosen so both innovations vanish, the
EKF update produces literally identical states from the diverging twin (SOC
prediction 115) and the non-diverging twin (SOC prediction 110): both clamp
to SOC 100 and share every other field. -/
theorem s_innov_small_pos : 0 < BatteryECMDigitalTwin.s_innov twin_small_a c5_dt := by
  unfold BatteryECMDigitalTwin.s_innov BatteryECMDigitalTwin.p_h
    BatteryECMDigitalTwin.p_pred BatteryECMDigitalTwin.f_diag
    BatteryECMDigitalTwin.H_row BatteryECMDigitalTwin.Q_mat
    BatteryECMDigitalTwin.R_meas
  norm_num [twin_small_a, BatteryECMDigitalTwin.init, c5_dt, Fin.ext_iff]
  positivity

theorem ekf_small_eq :
    twin_small_a.ekf_update c5_measured c5_current c5_dt =
      twin_small_b.ekf_update c5_measured c5_current c5_dt := by
  have hcapA : twin_small_a.current_capacity_ah ≠ 0 := by
    norm_num [twin_small_a, BatteryECMDigitalTwin.init]
  have hcapB : twin_small_b.current_capacity_ah ≠ 0 := by
    norm_num [twin_small_b, twin_small_a, BatteryECMDigitalTwin.init]
  have hτA : ¬ (twin_small_a.R1 * twin_small_a.C1 = 0 ∨
      twin_small_a.R2 * twin_small_a.C2 = 0) := by
    norm_num [twin_small_a, BatteryECMDigitalTwin.init]
  have hτB : ¬ (twin_small_b.R1 * twin_small_b.C1 = 0 ∨
      twin_small_b.R2 * twin_small_b.C2 = 0) := by
    norm_num [twin_small_b, twin_small_a, BatteryECMDigitalTwin.init]
  have hSA : BatteryECMDigitalTwin.s_innov twin_small_a c5_dt ≠ 0 :=
    ne_of_gt s_innov_small_pos
  have hSB : BatteryECMDigitalTwin.s_innov twin_small_b c5_dt ≠ 0 := by
    have hEq : BatteryECMDigitalTwin.s_innov twin_small_b c5_dt =
        BatteryECMDigitalTwin.s_innov twin_small_a c5_dt := rfl
    rw [hEq]
    exact hSA
  have hinnA :
      c5_measured - BatteryECMDigitalTwin.v_pred twin_small_a c5_current c5_dt = 0 := by
    unfold c5_measured
    exact sub_self _
  have hinnB :
      c5_measured - BatteryECMDigitalTwin.v_pred twin_small_b c5_current c5_dt = 0 := by
    rw [v_pred_small_eq]
    unfold c5_measured
    exact sub_self _
  unfold BatteryECMDigitalTwin.ekf_update
  rw [if_neg hcapA, if_neg hcapB, if_neg hτA, if_neg hτB, if_neg hSA, if_neg hSB,
    hinnA, hinnB]
  simp only [mul_zero, add_zero]
  rw [soc_pred_small_a, soc_pred_small_b]
  congr 1
  ext i j
  · rfl
  · rfl
  · rfl
  · norm_num [np_clip]
  · rfl
  · rfl
  · rfl
  · rfl
  · rfl
  · rfl
  · rfl
  · rfl
  · rfl
  · rfl
  · rfl
  · rfl
  · rfl

/-- C5 counterexample: two `step` calls (same measured voltage, current,
temperature and dt) on twins at SOC 100 and SOC 95; the first's EKF SOC
estimate before clamping is 115 — outside `[−10, 110]` — the second's is 110
— inside.  Both calls clamp, continue, and return EXACTLY the same output
snapshot (and state), so no field of the step output marks the divergence:
the output carries no diagnostic flag. -/
theorem C5_counterexample :
    BatteryECMDigitalTwin.pre_clamp_soc twin_small_a c5_measured c5_current c5_dt =
      115 ∧
    BatteryECMDigitalTwin.pre_clamp_soc twin_small_b c5_measured c5_current c5_dt =
      110 ∧
    ¬ (115 : ℝ) ∈ Set.Icc (-10 : ℝ) 110 ∧ (110 : ℝ) ∈ Set.Icc (-10 : ℝ) 110 ∧
    twin_small_a.step c5_measured c5_current 25.0 c5_dt true =
      twin_small_b.step c5_measured c5_current 25.0 c5_dt true := by
  have hinnA :
      c5_measured - BatteryECMDigitalTwin.v_pred twin_small_a c5_current c5_dt = 0 := by
    unfold c5_measured
    exact sub_self _
  have hinnB :
      c5_measured - BatteryECMDigitalTwin.v_pred twin_small_b c5_current c5_dt = 0 := by
    rw [v_pred_small_eq]
    unfold c5_measured
    exact sub_self _
  refine ⟨?_, ?_, ?_, ?_, ?_⟩
  · unfold BatteryECMDigitalTwin.pre_clamp_soc
    rw [hinnA, mul_zero, add_zero, soc_pred_small_a]
  · unfold BatteryECMDigitalTwin.pre_clamp_soc
    rw [hinnB, mul_zero, add_zero, soc_pred_small_b]
  · simp only [Set.mem_Icc]
    norm_num
  · simp only [Set.mem_Icc]
    norm_num
  · unfold BatteryECMDigitalTwin.step
    simp only [if_true]
    rw [show ({ twin_small_a with temperature_c := 25.0 } : BatteryECMDigitalTwin) =
          twin_small_a from rfl,
        show ({ twin_small_b with temperature_c := 25.0 } : BatteryECMDigitalTwin) =
          twin_small_b from rfl,
        ekf_small_eq]

/-- C5 (amended): on every EKF step with nonzero twin capacity and nonzero RC
time constants, when the innovation covariance is nonsingular the filter
clamps the corrected SOC into `[0,100]` and continues (returns a real state);
when the innovation covariance IS singular the program does not raise but its
arithmetic leaves the reals (numpy `inf`/`nan`, with `np.clip(nan)` = `nan`
outside `[0,100]`), embedded as `none` — i.e. no clamped real SOC exists
there.  In neither case does the step output contain a diagnostic flag (see
the counterexample: identical outputs with and without divergence). -/
theorem C5_clamp_and_continue (s : BatteryECMDigitalTwin) (mv ia dts : ℝ)
    (hcap : s.current_capacity_ah ≠ 0)
    (hτ : ¬ (s.R1 * s.C1 = 0 ∨ s.R2 * s.C2 = 0)) :
    (BatteryECMDigitalTwin.s_innov s dts ≠ 0 →
      ∃ s', s.ekf_update mv ia dts = some s' ∧ 0 ≤ s'.soc ∧ s'.soc ≤ 100) ∧
    (BatteryECMDigitalTwin.s_innov s dts = 0 → s.ekf_update mv ia dts = none) := by
  constructor
  · intro hS
    unfold BatteryECMDigitalTwin.ekf_update
    rw [if_neg hcap, if_neg hτ, if_neg hS]
    refine ⟨_, rfl, ?_, ?_⟩
    · show (0 : ℝ) ≤ np_clip _ 0 100
      unfold np_clip
      exact le_min (le_max_right _ _) (by norm_num)
    · show np_clip _ 0 100 ≤ 100
      exact min_le_right _ _
  · intro hS
    unfold BatteryECMDigitalTwin.ekf_update
    rw [if_neg hcap, if_neg hτ, if_pos hS]

/-- Witness for `C5_clamp_and_continue`: the regular conjunct at the default
twin (positive innovation covariance), and the singular conjunct at a twin
whose covariance makes `S` exactly zero at `dt = 0`. -/
theorem C5_clamp_and_continue_witness :
    (twin_default.current_capacity_ah ≠ 0 ∧
     ¬ (twin_default.R1 * twin_default.C1 = 0 ∨
        twin_default.R2 * twin_default.C2 = 0) ∧
     BatteryECMDigitalTwin.s_innov twin_default 60.0 ≠ 0 ∧
     ∃ s', twin_default.ekf_update 12.8 2.0 60.0 = some s' ∧
       0 ≤ s'.soc ∧ s'.soc ≤ 100) ∧
    (twin_singular.current_capacity_ah ≠ 0 ∧
     ¬ (twin_singular.R1 * twin_singular.C1 = 0 ∨
        twin_singular.R2 * twin_singular.C2 = 0) ∧
     BatteryECMDigitalTwin.s_innov twin_singular 0.0 = 0 ∧
     twin_singular.ekf_update 12.8 2.0 0.0 = none) := by
  have hcap : twin_default.current_capacity_ah ≠ 0 := by
    norm_num [twin_default, BatteryECMDigitalTwin.init]
  have hτ : ¬ (twin_default.R1 * twin_default.C1 = 0 ∨
      twin_default.R2 * twin_default.C2 = 0) := by
    norm_num [twin_default, BatteryECMDigitalTwin.init]
  have hS : BatteryECMDigitalTwin.s_innov twin_default 60.0 ≠ 0 := by
    have hpos : 0 < BatteryECMDigitalTwin.s_innov twin_default 60.0 := by
      unfold BatteryECMDigitalTwin.s_innov BatteryECMDigitalTwin.p_h
        BatteryECMDigitalTwin.p_pred BatteryECMDigitalTwin.f_diag
        BatteryECMDigitalTwin.H_row BatteryECMDigitalTwin.Q_mat
        BatteryECMDigitalTwin.R_meas
      norm_num [twin_default, BatteryECMDigitalTwin.init, Fin.ext_iff]
      positivity
    exact ne_of_gt hpos
  have hcapS : twin_singular.current_capacity_ah ≠ 0 := by
    norm_num [twin_singular, twin_default, BatteryECMDigitalTwin.init]
  have hτS : ¬ (twin_singular.R1 * twin_singular.C1 = 0 ∨
      twin_singular.R2 * twin_singular.C2 = 0) := by
    norm_num [twin_singular, twin_default, BatteryECMDigitalTwin.init]
  have hSS : BatteryECMDigitalTwin.s_innov twin_singular 0.0 = 0 := by
    unfold BatteryECMDigitalTwin.s_innov BatteryECMDigitalTwin.p_h
      BatteryECMDigitalTwin.p_pred BatteryECMDigitalTwin.f_diag
      BatteryECMDigitalTwin.H_row BatteryECMDigitalTwin.Q_mat
      BatteryECMDigitalTwin.R_meas
    norm_num [twin_singular, twin_default, BatteryECMDigitalTwin.init,
      Real.exp_zero, Fin.ext_iff]
  exact ⟨⟨hcap, hτ, hS, (C5_clamp_and_continue twin_default 12.8 2.0 60.0 hcap hτ).1 hS⟩,
    ⟨hcapS, hτS, hSS,
      (C5_clamp_and_continue twin_singular 12.8 2.0 0.0 hcapS hτS).2 hSS⟩⟩
